import Mathlib

/-!
# Verification of the maro-plugins Google Calendar OAuth2 token lifecycle

Shallow embedding of `src/plugins/maro-google-calendar/src/services/auth.service.ts`,
the error taxonomy of `src/plugins/googleCalendar/src/utils/error-handler.ts`, the
duration/date utilities of the date-parser module, and the end-time computation of
`calendar.service.ts` (`createEvent`).

Modelling conventions:
* JavaScript epoch-millisecond timestamps are `Int`; string fields are `String`;
  optional (`?:`) fields are `Option`.
* JavaScript truthiness on strings (`undefined`/`null`/`""` are falsy) and on
  numbers (`undefined`/`null`/`0` are falsy) is made explicit via `strTruthy` /
  `numTruthy` and the `jsOrStr` / `jsOrNum` forms of the `||` operator.
* The mutable fields of the `AuthService` singleton become the `AuthState`
  structure; the persisted token file (`data/tokens.json`) becomes the `store`
  field of `Sys`.  Every method is a function `Sys → Env → OpResult α` that
  returns the outcome, the post-state (JavaScript exceptions leave all
  mutations performed before the throw in place, so errors also carry a state),
  and an `Effects` record counting identity-provider refresh requests, token
  revocations, and persisted-store write attempts.
* External collaborators (the `google-auth-library` OAuth2 client, the file
  system, the token endpoint) are supplied through `Env`: the credential file
  content, the outcome of a provider refresh, the outcome of the code
  exchange, and whether a store write / unlink succeeds.
-/

namespace MaroCal

/-- JS string truthiness: `undefined`, `null` and `""` are falsy. -/
def strTruthy : Option String → Bool
  | some s => s ≠ ""
  | none => false

/-- JS number truthiness: `undefined`, `null` and `0` are falsy. -/
def numTruthy : Option Int → Bool
  | some n => n ≠ 0
  | none => false

/-- JS `a || b` where `a` is an optional string and `b` a string default. -/
def jsOrStr (a : Option String) (b : String) : String :=
  match a with
  | some s => if s = "" then b else s
  | none => b

/-- JS `a || b` where `a` is an optional number and `b` a number default. -/
def jsOrNum (a : Option Int) (b : Int) : Int :=
  match a with
  | some n => if n = 0 then b else n
  | none => b

/-- JS `a || b` on two optional objects (objects are always truthy). -/
def jsOrOpt {α : Type} (a b : Option α) : Option α :=
  match a with
  | some x => some x
  | none => b

/-- `installed` / `web` entry of `credentials.json` (calendar.types.ts,
`OAuthCredentials`). -/
structure ClientConfig where
  client_id : String
  project_id : String
  auth_uri : String
  token_uri : String
  auth_provider_x509_cert_url : String
  client_secret : String
  redirect_uris : List String
  deriving Repr, DecidableEq

/-- `OAuthCredentials` of calendar.types.ts: both keys optional. -/
structure OAuthCredentials where
  installed : Option ClientConfig
  web : Option ClientConfig
  deriving Repr, DecidableEq

/-- `OAuthTokens` of calendar.types.ts: `refresh_token` optional, the rest
required; `expiry_date` is an epoch-millisecond number. -/
structure OAuthTokens where
  access_token : String
  refresh_token : Option String
  scope : String
  token_type : String
  expiry_date : Int
  deriving Repr, DecidableEq

/-- The `Credentials` object handed over by the google-auth-library on a
refresh or code exchange: every field may be absent or null. -/
structure LibCredentials where
  access_token : Option String
  refresh_token : Option String
  scope : Option String
  token_type : Option String
  expiry_date : Option Int
  deriving Repr, DecidableEq

/-- Model of the external `google-auth-library` `OAuth2Client` object as
constructed by `createOAuth2Client`: constructor arguments plus the
credentials set with `setCredentials`. -/
structure OAuth2Client where
  clientId : String
  clientSecret : String
  redirectUri : String
  credentials : Option OAuthTokens
  deriving Repr, DecidableEq

/-- Modelled from the spec: the external collaborator contract
`generateAuthUrl(scopes, flags) -> url` (spec section 6).  The library builds
the Google authorization URL locally from the endpoint, the fixed scopes, the
offline-access/consent flags and the client identity; no network call is
involved.  The exact URL text is opaque to the repository; what matters is
that it is a nonempty URL string determined by the client. -/
def libGenerateAuthUrl (c : OAuth2Client) : String :=
  "https://accounts.google.com/o/oauth2/v2/auth?access_type=offline&scope=https://www.googleapis.com/auth/calendar&prompt=consent&client_id="
    ++ c.clientId

/-- State of a file on disk as observed through `readFile` + `JSON.parse`:
`absent` (ENOENT), `corrupt` (read error other than ENOENT, or unparseable
JSON), or present with parsed content. -/
inductive FileState (α : Type) where
  | absent
  | corrupt
  | present (a : α)
  deriving Repr, DecidableEq

/-- The mutable fields of the `AuthService` class (auth.service.ts lines
22-26). -/
structure AuthState where
  oauth2Client : Option OAuth2Client
  credentials : Option OAuthCredentials
  tokens : Option OAuthTokens
  initialized : Bool
  deriving Repr, DecidableEq

/-- Whole-system state: the in-memory service plus the persisted token store
(`data/tokens.json`), which `loadTokens` reads, `saveTokens` writes and
`clearTokens` unlinks. -/
structure Sys where
  auth : AuthState
  store : FileState OAuthTokens
  deriving Repr, DecidableEq

/-- Counters for the externally visible effects of one operation. -/
structure Effects where
  refreshCalls : Nat
  storeWrites : Nat
  revokeCalls : Nat
  deriving Repr, DecidableEq

def Effects.zero : Effects := ⟨0, 0, 0⟩

def Effects.add (a b : Effects) : Effects :=
  ⟨a.refreshCalls + b.refreshCalls, a.storeWrites + b.storeWrites,
    a.revokeCalls + b.revokeCalls⟩

/-- The error-code taxonomy of error-handler.ts (`ErrorCodes`). -/
inductive ErrorCode where
  | AUTH_NOT_CONFIGURED
  | AUTH_TOKEN_EXPIRED
  | AUTH_TOKEN_INVALID
  | AUTH_REFRESH_FAILED
  | INVALID_INPUT
  | INVALID_DATE
  | INVALID_DURATION
  | MISSING_REQUIRED_FIELD
  | EVENT_NOT_FOUND
  | CALENDAR_NOT_FOUND
  | RATE_LIMIT_EXCEEDED
  | API_ERROR
  | UNKNOWN_ERROR
  | FILE_NOT_FOUND
  | PARSE_ERROR
  deriving Repr, DecidableEq

/-- Everything the service can throw: a tagged `CalendarError`, a plain
`new Error(...)`, an error propagated from the external provider client, or a
file-system write failure. -/
inductive ThrownError where
  | calendarError (message : String) (code : ErrorCode)
  | genericError (message : String)
  | providerError (message : String)
  | persistError (message : String)
  deriving Repr, DecidableEq

/-- The error-code tag carried by a thrown error, when it has one: only
`CalendarError`s are tagged by kind. -/
def ThrownError.errCode : ThrownError → Option ErrorCode
  | .calendarError _ code => some code
  | .genericError _ => none
  | .providerError _ => none
  | .persistError _ => none

/-- Result of one operation: outcome, post-state (errors also carry the state,
since a JS exception keeps the mutations made before the throw) and effect
counters. -/
structure OpResult (α : Type) where
  result : Except ThrownError α
  sys : Sys
  fx : Effects

/-- The external world of one call: wall clock, the credential file, the
outcome the provider would give to a refresh or a code exchange, and whether
the store write / unlink syscalls succeed. -/
structure Env where
  now : Int
  credFile : FileState OAuthCredentials
  refreshResult : Except String LibCredentials
  tokenResult : String → Except String LibCredentials
  writeOk : Bool
  unlinkOk : Bool

/-- `SCOPES` constant of auth.service.ts. -/
def SCOPES : List String := ["https://www.googleapis.com/auth/calendar"]

/-- `loadCredentials` (auth.service.ts lines 45-58): read + parse
`config/credentials.json`; ENOENT becomes `AUTH_NOT_CONFIGURED`, any other
failure becomes `PARSE_ERROR`. -/
def loadCredentials (sys : Sys) (env : Env) : OpResult Unit :=
  match env.credFile with
  | .present creds =>
      ⟨.ok (), { sys with auth := { sys.auth with credentials := some creds } }, .zero⟩
  | .absent =>
      ⟨.error (.calendarError "OAuth credentials not found. Place credentials.json in config/"
        .AUTH_NOT_CONFIGURED), sys, .zero⟩
  | .corrupt =>
      ⟨.error (.calendarError "Failed to load credentials" .PARSE_ERROR), sys, .zero⟩

/-- `loadTokens` (auth.service.ts lines 60-71): read + parse the persisted
token store; ENOENT sets `tokens = null` and succeeds, any other failure
becomes `PARSE_ERROR`. -/
def loadTokens (sys : Sys) : OpResult Unit :=
  match sys.store with
  | .present t =>
      ⟨.ok (), { sys with auth := { sys.auth with tokens := some t } }, .zero⟩
  | .absent =>
      ⟨.ok (), { sys with auth := { sys.auth with tokens := none } }, .zero⟩
  | .corrupt =>
      ⟨.error (.calendarError "Failed to load tokens" .PARSE_ERROR), sys, .zero⟩

/-- `saveTokens` (auth.service.ts lines 73-78): ensure the parent directory
(`access`/`mkdir recursive`, modelled as always succeeding), `writeFile` the
record, and only after the write succeeds assign `this.tokens = tokens`.  A
failed write throws and leaves the in-memory record untouched.  Both branches
count one write attempt against the store. -/
def saveTokens (sys : Sys) (env : Env) (tokens : OAuthTokens) : OpResult Unit :=
  if env.writeOk then
    ⟨.ok (), { auth := { sys.auth with tokens := some tokens }, store := .present tokens },
      ⟨0, 1, 0⟩⟩
  else
    ⟨.error (.persistError "Failed to write tokens"), sys, ⟨0, 1, 0⟩⟩

/-- `createOAuth2Client` (auth.service.ts lines 80-95): requires loaded
credentials, picks `installed || web`, constructs the library client with the
OOB redirect, and sets the current tokens as its credentials when present.
(The registration of the library's `tokens` event listener has no effect in
this model; the refresh path below calls `handleTokenRefresh` explicitly, as
`getClient` does.) -/
def createOAuth2Client (sys : Sys) : OpResult Unit :=
  match sys.auth.credentials with
  | none =>
      ⟨.error (.calendarError "Credentials not loaded" .AUTH_NOT_CONFIGURED), sys, .zero⟩
  | some creds =>
      match jsOrOpt creds.installed creds.web with
      | none =>
          ⟨.error (.calendarError "Invalid credentials format" .AUTH_NOT_CONFIGURED), sys, .zero⟩
      | some cc =>
          let client : OAuth2Client :=
            { clientId := cc.client_id
              clientSecret := cc.client_secret
              redirectUri := "urn:ietf:wg:oauth:2.0:oob"
              credentials := sys.auth.tokens }
          ⟨.ok (), { sys with auth := { sys.auth with oauth2Client := some client } }, .zero⟩

/-- `initialize` (auth.service.ts lines 37-43): no-op when already
initialized, else load credentials, load tokens, create the client, and set
the flag.  A throw from any step leaves the mutations made so far. -/
def initService (sys : Sys) (env : Env) : OpResult Unit :=
  if sys.auth.initialized then ⟨.ok (), sys, .zero⟩
  else
    let r1 := loadCredentials sys env
    match r1.result with
    | .error e => ⟨.error e, r1.sys, r1.fx⟩
    | .ok _ =>
      let r2 := loadTokens r1.sys
      match r2.result with
      | .error e => ⟨.error e, r2.sys, r1.fx.add r2.fx⟩
      | .ok _ =>
        let r3 := createOAuth2Client r2.sys
        match r3.result with
        | .error e => ⟨.error e, r3.sys, (r1.fx.add r2.fx).add r3.fx⟩
        | .ok _ =>
          ⟨.ok (), { r3.sys with auth := { r3.sys.auth with initialized := true } },
            (r1.fx.add r2.fx).add r3.fx⟩

/-- `handleTokenRefresh` (auth.service.ts lines 97-110): merge the library's
refresh credentials over the current record.  `access_token` and
`expiry_date` fall back to the stored values under JS `||`; the stored
`refresh_token` is overwritten only when the response carries a truthy one.
The merged record is then persisted with `saveTokens`. -/
def handleTokenRefresh (sys : Sys) (env : Env) (resp : LibCredentials) : OpResult Unit :=
  match sys.auth.tokens with
  | none => ⟨.ok (), sys, .zero⟩
  | some cur =>
    let base : OAuthTokens :=
      { cur with
          access_token := jsOrStr resp.access_token cur.access_token
          expiry_date := jsOrNum resp.expiry_date cur.expiry_date }
    let updated :=
      if strTruthy resp.refresh_token then { base with refresh_token := resp.refresh_token }
      else base
    saveTokens sys env updated

/-- `isAuthenticated` (auth.service.ts lines 112-114). -/
def isAuthenticated (a : AuthState) : Bool :=
  a.tokens.isSome && a.oauth2Client.isSome

/-- `needsRefresh` (auth.service.ts lines 116-120): true when there is no
token record or its `expiry_date` is falsy, else true exactly when `Date.now()`
has reached the expiry minus the fixed 5-minute buffer. -/
def needsRefresh (tokens : Option OAuthTokens) (now : Int) : Bool :=
  match tokens with
  | none => true
  | some t =>
    if t.expiry_date = 0 then true
    else decide (now ≥ t.expiry_date - 5 * 60 * 1000)

/-- `generateAuthUrl` (auth.service.ts lines 138-144): lazily create the
OAuth2 client when missing (throwing `AUTH_NOT_CONFIGURED` when no
credentials are loaded), then build the authorization URL via the library.
The final `none` branch models the TS non-null assertion `this.oauth2Client!`
and is unreachable after a successful `createOAuth2Client`. -/
def generateAuthUrl (sys : Sys) : OpResult String :=
  match sys.auth.oauth2Client with
  | some c => ⟨.ok (libGenerateAuthUrl c), sys, .zero⟩
  | none =>
    match sys.auth.credentials with
    | none =>
        ⟨.error (.calendarError "Credentials not loaded" .AUTH_NOT_CONFIGURED), sys, .zero⟩
    | some _ =>
      let r := createOAuth2Client sys
      match r.result with
      | .error e => ⟨.error e, r.sys, .zero⟩
      | .ok _ =>
        match r.sys.auth.oauth2Client with
        | some c => ⟨.ok (libGenerateAuthUrl c), r.sys, .zero⟩
        | none => ⟨.error (.genericError "oauth2Client non-null assertion failed"), r.sys, .zero⟩

/-- `getClient` (auth.service.ts lines 122-136), the `acquireClient()` hot
path: initialize if needed, require the client object, fail with the
`NotAuthenticated` error (`AUTH_TOKEN_INVALID`, message embedding the
authorization URL) when no token record exists, perform a provider refresh
when the record is inside the safety window (counting one refresh request and
propagating a provider failure as-is), persist the merged record, and return
the client. -/
def getClient (sys : Sys) (env : Env) : OpResult OAuth2Client :=
  let r1 := if ¬ sys.auth.initialized then initService sys env else ⟨.ok (), sys, .zero⟩
  match r1.result with
  | .error e => ⟨.error e, r1.sys, r1.fx⟩
  | .ok _ =>
    match r1.sys.auth.oauth2Client with
    | none =>
        ⟨.error (.calendarError "OAuth2 client not initialized" .AUTH_NOT_CONFIGURED),
          r1.sys, r1.fx⟩
    | some client =>
      if ¬ isAuthenticated r1.sys.auth then
        let r2 := generateAuthUrl r1.sys
        match r2.result with
        | .error e => ⟨.error e, r2.sys, r1.fx.add r2.fx⟩
        | .ok url =>
            ⟨.error (.calendarError ("Not authenticated. Visit: " ++ url) .AUTH_TOKEN_INVALID),
              r2.sys, r1.fx.add r2.fx⟩
      else if needsRefresh r1.sys.auth.tokens env.now then
        let fx1 := r1.fx.add ⟨1, 0, 0⟩
        match env.refreshResult with
        | .error msg => ⟨.error (.providerError msg), r1.sys, fx1⟩
        | .ok resp =>
          let r3 := handleTokenRefresh r1.sys env resp
          match r3.result with
          | .error e => ⟨.error e, r3.sys, fx1.add r3.fx⟩
          | .ok _ => ⟨.ok client, r3.sys, fx1.add r3.fx⟩
      else ⟨.ok client, r1.sys, r1.fx⟩

/-- `exchangeCode` (auth.service.ts lines 146-161): requires the client
object, calls the provider's `getToken(code)` (errors propagate untyped),
throws a plain `new Error("No access token received")` when the response has
no truthy access token, else builds the record with JS `||` defaults
(`refresh_token` passes through `?? undefined` unchanged), persists it and
sets it on the client. -/
def exchangeCode (sys : Sys) (env : Env) (code : String) : OpResult Unit :=
  match sys.auth.oauth2Client with
  | none =>
      ⟨.error (.calendarError "OAuth2 client not initialized" .AUTH_NOT_CONFIGURED), sys, .zero⟩
  | some client =>
    match env.tokenResult code with
    | .error msg => ⟨.error (.providerError msg), sys, .zero⟩
    | .ok tokens =>
      if ¬ strTruthy tokens.access_token then
        ⟨.error (.genericError "No access token received"), sys, .zero⟩
      else
        let oauthTokens : OAuthTokens :=
          { access_token := match tokens.access_token with | some a => a | none => ""
            refresh_token := tokens.refresh_token
            scope := jsOrStr tokens.scope (String.intercalate " " SCOPES)
            token_type := jsOrStr tokens.token_type "Bearer"
            expiry_date := jsOrNum tokens.expiry_date (env.now + 3600000) }
        let r := saveTokens sys env oauthTokens
        match r.result with
        | .error e => ⟨.error e, r.sys, r.fx⟩
        | .ok _ =>
          ⟨.ok (),
            { r.sys with auth := { r.sys.auth with
                oauth2Client := some { client with credentials := some oauthTokens } } },
            r.fx⟩

/-- Model of the JS `new Date(ms).toISOString()` builtin as an injective
rendering of the millisecond timestamp. -/
def dateToISOString (ms : Int) : String :=
  "iso:" ++ toString ms

/-- The snapshot returned by `getStatus` (auth.service.ts lines 163-185). -/
structure StatusSnapshot where
  isAuthenticated : Bool
  needsRefresh : Bool
  expiresAt : Option String
  authUrl : Option String
  deriving Repr, DecidableEq

/-- `getStatus` (auth.service.ts lines 163-185): builds the snapshot from
`isAuthenticated`/`needsRefresh`, adds `expiresAt` when a record with a truthy
expiry exists, and — only when not authenticated — tries `generateAuthUrl`,
swallowing any throw.  The state mutation `generateAuthUrl` may perform
(lazily creating the OAuth2 client) persists in the returned state. -/
def getStatus (sys : Sys) (env : Env) : OpResult StatusSnapshot :=
  let base : StatusSnapshot :=
    { isAuthenticated := isAuthenticated sys.auth
      needsRefresh := needsRefresh sys.auth.tokens env.now
      expiresAt := none
      authUrl := none }
  let withExp : StatusSnapshot :=
    match sys.auth.tokens with
    | some t =>
        if t.expiry_date = 0 then base
        else { base with expiresAt := some (dateToISOString t.expiry_date) }
    | none => base
  if withExp.isAuthenticated then ⟨.ok withExp, sys, .zero⟩
  else
    let r := generateAuthUrl sys
    match r.result with
    | .ok url => ⟨.ok { withExp with authUrl := some url }, r.sys, .zero⟩
    | .error _ => ⟨.ok withExp, r.sys, .zero⟩

/-- `clearTokens` (auth.service.ts lines 187-191): drop the in-memory record,
revoke with the provider when a client exists (fire-and-forget, failures
unobserved), and unlink the persisted store inside a try/catch (a failed
unlink is swallowed and leaves the file). -/
def clearTokens (sys : Sys) (env : Env) : OpResult Unit :=
  let auth1 := { sys.auth with tokens := none }
  let fx1 : Effects :=
    match auth1.oauth2Client with
    | some _ => ⟨0, 0, 1⟩
    | none => .zero
  let store1 := if env.unlinkOk then FileState.absent else sys.store
  ⟨.ok (), { auth := auth1, store := store1 }, fx1⟩

/-! ## Cooperative-concurrency semantics of `getClient`

JavaScript runs single-threaded with cooperative scheduling: code between two
`await`s is atomic.  `getClient` on an already-initialized service has exactly
one internal suspension point on the refresh path — the
`await this.oauth2Client.refreshAccessToken()` call.  A logical caller is
therefore a two-phase program:

* phase `ready` — the synchronous body of `getClient` up to (and including)
  issuing the refresh request: the `initialized` / client / `isAuthenticated` /
  `needsRefresh` checks, and, when a refresh is needed, dispatching the
  request to the provider and suspending;
* phase `waiting` — resuming with the provider's response and running
  `handleTokenRefresh` (whose internal file-write suspension is collapsed
  into the same step; this only removes interleavings, it adds none).

The uninitialized path (`await this.initialize()`) also runs atomically in
the `ready` step; it performs no provider refresh, so refresh counting is
unaffected by that collapse.  A schedule is a list of caller indices; each
entry runs the named caller's next phase. -/

/-- Progress of one logical `getClient` caller. -/
inductive CallerPhase where
  | ready
  | waiting
  | finishedOk
  | finishedErr
  deriving Repr, DecidableEq

/-- Global state of a concurrent run: shared system state, accumulated
effects, and each caller's phase. -/
structure ConcState where
  sys : Sys
  fx : Effects
  phases : Nat → CallerPhase

/-- Run one scheduling step: caller `i` executes its next phase of
`getClient` (see the section comment for the phase split). -/
def stepCaller (env : Env) (cs : ConcState) (i : Nat) : ConcState :=
  match cs.phases i with
  | .ready =>
    let r1 :=
      if ¬ cs.sys.auth.initialized then initService cs.sys env
      else ⟨.ok (), cs.sys, .zero⟩
    match r1.result with
    | .error _ =>
        { sys := r1.sys, fx := cs.fx.add r1.fx
          phases := Function.update cs.phases i .finishedErr }
    | .ok _ =>
      match r1.sys.auth.oauth2Client with
      | none =>
          { sys := r1.sys, fx := cs.fx.add r1.fx
            phases := Function.update cs.phases i .finishedErr }
      | some _ =>
        if ¬ isAuthenticated r1.sys.auth then
          { sys := (generateAuthUrl r1.sys).sys, fx := cs.fx.add r1.fx
            phases := Function.update cs.phases i .finishedErr }
        else if needsRefresh r1.sys.auth.tokens env.now then
          { sys := r1.sys, fx := (cs.fx.add r1.fx).add ⟨1, 0, 0⟩
            phases := Function.update cs.phases i .waiting }
        else
          { sys := r1.sys, fx := cs.fx.add r1.fx
            phases := Function.update cs.phases i .finishedOk }
  | .waiting =>
    match env.refreshResult with
    | .error _ =>
        { sys := cs.sys, fx := cs.fx
          phases := Function.update cs.phases i .finishedErr }
    | .ok resp =>
      let r := handleTokenRefresh cs.sys env resp
      match r.result with
      | .error _ =>
          { sys := r.sys, fx := cs.fx.add r.fx
            phases := Function.update cs.phases i .finishedErr }
      | .ok _ =>
          { sys := r.sys, fx := cs.fx.add r.fx
            phases := Function.update cs.phases i .finishedOk }
  | .finishedOk => cs
  | .finishedErr => cs

/-- Run a schedule (list of caller indices) from a concurrent state. -/
def runSchedule (env : Env) (sched : List Nat) (cs : ConcState) : ConcState :=
  match sched with
  | [] => cs
  | i :: rest => runSchedule env rest (stepCaller env cs i)

/-- Initial concurrent state: shared state `sys`, no effects yet, every
caller about to enter `getClient`. -/
def initConc (sys : Sys) : ConcState :=
  { sys := sys, fx := .zero, phases := fun _ => .ready }

/-! ## Duration parsing and `createEvent` end-time computation

Embedding of `parseDuration` / `calculateEndTime` from the date-parser
utility and of the end-time selection in `createEvent`
(calendar.service.ts lines 147-157).  The three regexes

* hours:    `(\d+)\s*(?:hours?|hrs?|h)` (case-insensitive)
* minutes:  `(\d+)\s*(?:minutes?|mins?|m)` (case-insensitive)
* combined: `(\d+)\s*(?:hours?|hrs?|h)\s*(?:and\s*)?(\d+)\s*(?:minutes?|mins?|m)`

are embedded as explicit scanners over the lower-cased character list, with
the regex engine's left-to-right scan, greedy repetition and ordered
alternation with backtracking made explicit. -/

/-- Value of a nonempty digit run (JS `parseInt` on the captured group). -/
def digitsToNat (ds : List Char) : Nat :=
  ds.foldl (fun acc c => acc * 10 + (c.toNat - 48)) 0

/-- `(\d+)`: maximal digit run at the head, with its value and the rest. -/
def takeDigits (cs : List Char) : Option (Nat × List Char) :=
  let ds := cs.takeWhile Char.isDigit
  if ds.isEmpty then none
  else some (digitsToNat ds, cs.drop ds.length)

/-- A JS `\s` character (the common whitespace subset). -/
def isWsChar (c : Char) : Bool :=
  c = ' ' || c = '\t' || c = '\n' || c = '\r' || c = '\x0b' || c = '\x0c'

/-- `\s*`: greedy whitespace skip (exact here, since whitespace never starts
any following token of these patterns). -/
def skipWs (cs : List Char) : List Char :=
  cs.dropWhile isWsChar

/-- Drop a literal character sequence from the head, or fail. -/
def dropLit : List Char → List Char → Option (List Char)
  | [], cs => some cs
  | _ :: _, [] => none
  | p :: ps, c :: cs => if c = p then dropLit ps cs else none

/-- Alternatives of `(?:hours?|hrs?|h)` in the engine's trial order (each
optional `s?` expanded greedy-first). -/
def hourAlts : List (List Char) :=
  ["hours".data, "hour".data, "hrs".data, "hr".data, "h".data]

/-- Alternatives of `(?:minutes?|mins?|m)` in the engine's trial order. -/
def minuteAlts : List (List Char) :=
  ["minutes".data, "minute".data, "mins".data, "min".data, "m".data]

/-- Ordered alternation without a continuation (end of pattern): first
alternative that matches wins. -/
def dropAlt (alts : List (List Char)) (cs : List Char) : Option (List Char) :=
  match alts with
  | [] => none
  | a :: rest =>
    match dropLit a cs with
    | some r => some r
    | none => dropAlt rest cs

/-- Tail of the combined pattern after the hour unit:
`\s*(?:and\s*)?(\d+)\s*(?:minutes?|mins?|m)`, with the optional `and\s*`
tried greedily first and backtracked on failure. -/
def combinedTail (d1 : Nat) (cs : List Char) : Option (Nat × Nat) :=
  let finish : List Char → Option (Nat × Nat) := fun cs2 =>
    match takeDigits cs2 with
    | none => none
    | some (d2, r6) =>
      match dropAlt minuteAlts (skipWs r6) with
      | some _ => some (d1, d2)
      | none => none
  let r4 := skipWs cs
  let withAnd :=
    match dropLit "and".data r4 with
    | some ra => finish (skipWs ra)
    | none => none
  match withAnd with
  | some res => some res
  | none => finish r4

/-- Hour-unit alternation of the combined pattern, with backtracking into the
tail: an alternative only wins if the rest of the pattern also matches. -/
def combinedHourAlts (alts : List (List Char)) (d1 : Nat) (cs : List Char) :
    Option (Nat × Nat) :=
  match alts with
  | [] => none
  | a :: rest =>
    match dropLit a cs with
    | none => combinedHourAlts rest d1 cs
    | some r3 =>
      match combinedTail d1 r3 with
      | some res => some res
      | none => combinedHourAlts rest d1 cs

/-- The combined pattern anchored at the current position. -/
def combinedAt (cs : List Char) : Option (Nat × Nat) :=
  match takeDigits cs with
  | none => none
  | some (d1, r1) => combinedHourAlts hourAlts d1 (skipWs r1)

/-- Left-to-right scan: first position where the anchored matcher succeeds
(the regex engine's search loop). -/
def scanFor {α : Type} (f : List Char → Option α) : List Char → Option α
  | [] => f []
  | c :: cs =>
    match f (c :: cs) with
    | some r => some r
    | none => scanFor f cs

/-- The hours pattern anchored at the current position. -/
def hoursAt (cs : List Char) : Option Nat :=
  match takeDigits cs with
  | none => none
  | some (d, r1) =>
    match dropAlt hourAlts (skipWs r1) with
    | some _ => some d
    | none => none

/-- The minutes pattern anchored at the current position. -/
def minutesAt (cs : List Char) : Option Nat :=
  match takeDigits cs with
  | none => none
  | some (d, r1) =>
    match dropAlt minuteAlts (skipWs r1) with
    | some _ => some d
    | none => none

/-- Lower-cased character list of the input (emulates the `/i` flag). -/
def lcList (s : String) : List Char :=
  s.data.map Char.toLower

/-- `^(\d+)$`: the whole input is one digit run. -/
def matchWholeNum (cs : List Char) : Option Nat :=
  match takeDigits cs with
  | some (n, []) => some n
  | _ => none

/-- `ParsedDuration` of calendar.types.ts. -/
structure ParsedDuration where
  hours : Nat
  minutes : Nat
  totalMinutes : Nat
  deriving Repr, DecidableEq

/-- `parseDuration` (date-parser utility): try the combined pattern first,
else collect the hours and minutes patterns independently (0 when absent);
when both are 0, accept a bare number as hours, otherwise throw
`INVALID_DURATION`. -/
def parseDuration (input : String) : Except ThrownError ParsedDuration :=
  let cs := lcList input
  match scanFor combinedAt cs with
  | some (h, m) => .ok ⟨h, m, h * 60 + m⟩
  | none =>
    let hours :=
      match scanFor hoursAt cs with
      | some h => h
      | none => 0
    let minutes :=
      match scanFor minutesAt cs with
      | some m => m
      | none => 0
    if hours = 0 ∧ minutes = 0 then
      match matchWholeNum cs with
      | some n => .ok ⟨n, 0, n * 60⟩
      | none =>
          .error (.calendarError ("Could not parse duration from: \"" ++ input ++ "\"")
            .INVALID_DURATION)
    else .ok ⟨hours, minutes, hours * 60 + minutes⟩

/-- `addHours` of date-fns on an epoch-millisecond timestamp. -/
def addHours (d : Int) (h : Nat) : Int :=
  d + 3600000 * h

/-- `addMinutes` of date-fns on an epoch-millisecond timestamp. -/
def addMinutes (d : Int) (m : Nat) : Int :=
  d + 60000 * m

/-- `calculateEndTime` (date-parser utility) applied to an already-parsed
duration: add the hours component when positive, then the minutes component
when positive. -/
def calculateEndTime (startTime : Int) (pd : ParsedDuration) : Int :=
  let e := startTime
  let e := if pd.hours > 0 then addHours e pd.hours else e
  if pd.minutes > 0 then addMinutes e pd.minutes else e

/-- `calculateEndTime` applied to a duration string (the
`string | ParsedDuration` union's string arm parses first). -/
def calculateEndTimeStr (startTime : Int) (duration : String) :
    Except ThrownError Int :=
  match parseDuration duration with
  | .error e => .error e
  | .ok pd => .ok (calculateEndTime startTime pd)

/-- End-time selection of `createEvent` (calendar.service.ts lines 147-157):
a truthy `endTime` string is parsed by the external `parseDateTime`
collaborator (supplied as `parseEnd`); else a truthy `duration` string goes
through `calculateEndTime`; else the fixed default duration `"1 hour"` is
used. -/
def createEventEnd (parseEnd : String → Int) (endTime duration : Option String)
    (startDate : Int) : Except ThrownError Int :=
  if strTruthy endTime then
    .ok (parseEnd (match endTime with | some s => s | none => ""))
  else if strTruthy duration then
    calculateEndTimeStr startDate (match duration with | some s => s | none => "")
  else
    calculateEndTimeStr startDate "1 hour"

/-! ## Concrete fixtures

Closed values used by counterexamples and witnesses. -/

/-- A valid `installed` client configuration. -/
def ccFix : ClientConfig :=
  ⟨"cid", "pid", "https://accounts.google.com/o/oauth2/auth",
    "https://oauth2.googleapis.com/token", "https://www.googleapis.com/oauth2/v1/certs",
    "sec", ["urn:ietf:wg:oauth:2.0:oob"]⟩

/-- A valid credential bundle (installed flavour). -/
def credsFix : OAuthCredentials := ⟨some ccFix, none⟩

/-- A token record 4 minutes from expiry at clock `1000000000`. -/
def staleTok : OAuthTokens := ⟨"at0", some "rt0", "scope", "Bearer", 1000240000⟩

/-- A token record 10 minutes from expiry at clock `1000000000`. -/
def freshTok : OAuthTokens := ⟨"at0", some "rt0", "scope", "Bearer", 1000600000⟩

/-- The OAuth2 client object as `createOAuth2Client` builds it from `ccFix`
with `staleTok` set. -/
def clientFix : OAuth2Client := ⟨"cid", "sec", "urn:ietf:wg:oauth:2.0:oob", some staleTok⟩

/-- An initialized, authenticated service whose token record is inside the
5-minute refresh window at clock `1000000000`. -/
def sysAuthed : Sys := ⟨⟨some clientFix, some credsFix, some staleTok, true⟩, .present staleTok⟩

/-- Like `sysAuthed` but with the token record 10 minutes from expiry. -/
def sysFreshTok : Sys := ⟨⟨some clientFix, some credsFix, some freshTok, true⟩, .present freshTok⟩

/-- A refresh response carrying a new access token and expiry but no refresh
token (the provider did not reissue it). -/
def respFix : LibCredentials := ⟨some "at1", none, none, none, some 1003600000⟩

/-- Benign environment: credential file present, provider refresh succeeds
with `respFix`, store writes succeed. -/
def envOk : Env :=
  ⟨1000000000, .present credsFix, .ok respFix, fun _ => .ok respFix, true, true⟩

/-- Environment in which the provider refuses the refresh and the code
exchange. -/
def envFail : Env :=
  ⟨1000000000, .present credsFix, .error "invalid_grant", fun _ => .error "bad code", true, true⟩

/-- A service that loaded credentials but whose client construction never ran
(reachable when `loadTokens` threw during `initialize`). -/
def sysLazy : Sys := ⟨⟨none, some credsFix, none, false⟩, .absent⟩

/-- A never-initialized service with nothing loaded. -/
def sysFresh : Sys := ⟨⟨none, none, none, false⟩, .absent⟩

/-- A never-initialized service whose persisted token store is unreadable. -/
def sysCorruptStore : Sys := ⟨⟨none, none, none, false⟩, .corrupt⟩

/-- Environment with no credential file. -/
def envNoCred : Env :=
  ⟨1000000000, .absent, .error "x", fun _ => .error "x", true, true⟩

/-- Environment whose credential file is unparseable. -/
def envCorruptCred : Env :=
  ⟨1000000000, .corrupt, .error "x", fun _ => .error "x", true, true⟩

/-- Environment with a valid credential file (provider unused). -/
def envGoodCred : Env :=
  ⟨1000000000, .present credsFix, .error "x", fun _ => .error "x", true, true⟩

/-- Environment in which the persisted-store write fails. -/
def envNoWrite : Env :=
  ⟨1000000000, .present credsFix, .ok respFix, fun _ => .ok respFix, false, true⟩

/-- Environment whose code exchange returns a response with no access
token. -/
def envNoAT : Env :=
  ⟨1000000000, .present credsFix, .ok respFix,
    fun _ => .ok ⟨none, some "rt", none, none, none⟩, true, true⟩

/-- A fresh token record distinct from `staleTok`, used to exercise a
persistence write. -/
def newTok : OAuthTokens := ⟨"atN", some "rtN", "scope", "Bearer", 2000000000⟩

/-! ## Helper lemmas -/

@[simp] lemma Effects.add_zero (a : Effects) : a.add .zero = a := by
  cases a; simp [Effects.add, Effects.zero]

@[simp] lemma Effects.zero_add (a : Effects) : Effects.zero.add a = a := by
  cases a; simp [Effects.add, Effects.zero]

@[simp] lemma Effects.refreshCalls_add (a b : Effects) :
    (a.add b).refreshCalls = a.refreshCalls + b.refreshCalls := rfl

/-- The error-code tag of an operation outcome, when the operation failed
with a tagged error. -/
def resultErrCode {α : Type} (r : OpResult α) : Option ErrorCode :=
  match r.result with
  | .error e => e.errCode
  | .ok _ => none

/-- `handleTokenRefresh` never issues an identity-provider request itself
(it only merges and persists). -/
lemma handleTokenRefresh_refreshCalls (sys : Sys) (env : Env) (resp : LibCredentials) :
    (handleTokenRefresh sys env resp).fx.refreshCalls = 0 := by
  unfold handleTokenRefresh saveTokens
  split
  · rfl
  · split <;> split <;> rfl

set_option maxRecDepth 4096 in
/-- The library-built authorization URL is never empty. -/
lemma libGenerateAuthUrl_ne_empty (c : OAuth2Client) : libGenerateAuthUrl c ≠ "" := by
  intro h
  have hlen : (libGenerateAuthUrl c).length = 0 := by rw [h]; rfl
  unfold libGenerateAuthUrl at hlen
  rw [String.length_append] at hlen
  have hpos : (0 : Nat) <
      ("https://accounts.google.com/o/oauth2/v2/auth?access_type=offline&scope=https://www.googleapis.com/auth/calendar&prompt=consent&client_id=").length := by
    decide
  omega

/-- `createOAuth2Client` touches only the `oauth2Client` field: tokens,
credentials, the initialized flag, the persisted store and the effect
counters are unchanged. -/
lemma createOAuth2Client_frame (sys : Sys) :
    (createOAuth2Client sys).sys.auth.tokens = sys.auth.tokens
    ∧ (createOAuth2Client sys).sys.auth.credentials = sys.auth.credentials
    ∧ (createOAuth2Client sys).sys.auth.initialized = sys.auth.initialized
    ∧ (createOAuth2Client sys).sys.store = sys.store
    ∧ (createOAuth2Client sys).fx = .zero := by
  unfold createOAuth2Client
  split
  · exact ⟨rfl, rfl, rfl, rfl, rfl⟩
  · split <;> exact ⟨rfl, rfl, rfl, rfl, rfl⟩

/-- `generateAuthUrl` touches only the `oauth2Client` field and has no
externally visible effects. -/
lemma generateAuthUrl_frame (sys : Sys) :
    (generateAuthUrl sys).sys.auth.tokens = sys.auth.tokens
    ∧ (generateAuthUrl sys).sys.auth.credentials = sys.auth.credentials
    ∧ (generateAuthUrl sys).sys.auth.initialized = sys.auth.initialized
    ∧ (generateAuthUrl sys).sys.store = sys.store
    ∧ (generateAuthUrl sys).fx = .zero := by
  unfold generateAuthUrl
  split
  · exact ⟨rfl, rfl, rfl, rfl, rfl⟩
  · split
    · exact ⟨rfl, rfl, rfl, rfl, rfl⟩
    · have hf := createOAuth2Client_frame sys
      rcases hcc : createOAuth2Client sys with ⟨res, s2, fx2⟩
      rw [hcc] at hf
      dsimp only at hf ⊢
      cases res with
      | error e => exact ⟨hf.1, hf.2.1, hf.2.2.1, hf.2.2.2.1, rfl⟩
      | ok a =>
        rcases ho : s2.auth.oauth2Client with _ | c <;> simp only [ho] <;>
          exact ⟨hf.1, hf.2.1, hf.2.2.1, hf.2.2.2.1, by trivial⟩

/-! ## Claim C4 — refresh exactly when inside the 5-minute safety window -/

/-- C4: for every initialized, authenticated state whose token record has a
(nonzero) expiry timestamp, `getClient` issues exactly one provider refresh
request when the clock has reached `expiry_date - 5 minutes`, and zero
otherwise; outside the window it returns the client immediately with no
state change and no effects. -/
theorem getClient_refresh_iff_window (sys : Sys) (env : Env) (c : OAuth2Client)
    (t : OAuthTokens)
    (hi : sys.auth.initialized = true) (hc : sys.auth.oauth2Client = some c)
    (ht : sys.auth.tokens = some t) (he : t.expiry_date ≠ 0) :
    (getClient sys env).fx.refreshCalls =
      (if env.now ≥ t.expiry_date - 5 * 60 * 1000 then 1 else 0)
    ∧ (env.now < t.expiry_date - 5 * 60 * 1000 →
        (getClient sys env).result = .ok c ∧ (getClient sys env).sys = sys
          ∧ (getClient sys env).fx = .zero) := by
  have hauth : isAuthenticated sys.auth = true := by
    simp [isAuthenticated, ht, hc]
  have hnr : needsRefresh sys.auth.tokens env.now =
      decide (env.now ≥ t.expiry_date - 5 * 60 * 1000) := by
    simp [needsRefresh, ht, he]
  unfold getClient
  simp only [hi, hc, hauth, not_true, Bool.not_true, ite_false, if_false]
  by_cases hwin : env.now ≥ t.expiry_date - 5 * 60 * 1000
  · have hnrT : needsRefresh sys.auth.tokens env.now = true := by
      rw [hnr]; exact decide_eq_true hwin
    simp only [hnrT, if_true, ite_true, eq_self_iff_true]
    refine ⟨?_, fun hlt => absurd hwin (by omega)⟩
    rw [if_pos hwin]
    rcases henv : env.refreshResult with msg | resp
    · simp [henv, Effects.add, Effects.zero]
    · rcases hr3 : handleTokenRefresh sys env resp with ⟨res3, s3, f3⟩
      have hrc := handleTokenRefresh_refreshCalls sys env resp
      rw [hr3] at hrc
      dsimp only at hrc
      cases res3 <;> simp [henv, hr3, hrc, Effects.add, Effects.zero]
  · have hnrF : needsRefresh sys.auth.tokens env.now = false := by
      rw [hnr]; exact decide_eq_false hwin
    simp only [hnrF, Bool.false_eq_true, if_false, ite_false]
    constructor
    · rw [if_neg hwin]
      rfl
    · intro h2
      refine ⟨?_, ?_, ?_⟩ <;> trivial

/-- C4 witness: with expiry = now + 4 minutes exactly one refresh request is
issued; with expiry = now + 10 minutes zero requests are issued and the
client is returned unchanged. -/
theorem getClient_refresh_iff_window_witness :
    (getClient sysAuthed envOk).fx.refreshCalls = 1
    ∧ (getClient sysFreshTok envOk).fx.refreshCalls = 0
    ∧ (getClient sysFreshTok envOk).result = .ok clientFix := by
  have h1 := getClient_refresh_iff_window sysAuthed envOk clientFix staleTok
    rfl rfl rfl (by decide)
  have h2 := getClient_refresh_iff_window sysFreshTok envOk clientFix freshTok
    rfl rfl rfl (by decide)
  refine ⟨?_, ?_, ?_⟩
  · have := h1.1
    norm_num [staleTok, envOk] at this
    exact this
  · have := h2.1
    norm_num [freshTok, envOk] at this
    exact this
  · exact (h2.2 (by norm_num [freshTok, envOk])).1

/-! ## Claim C5 — refresh response without a refresh token retains the old one -/

/-- C5: when the provider's refresh response carries no refresh token (but a
new access token and expiry), the merged record persisted and kept in memory
by `handleTokenRefresh` updates the access token and expiry while keeping the
previously stored refresh token unchanged. -/
theorem handleTokenRefresh_retains_refresh_token (sys : Sys) (env : Env)
    (resp : LibCredentials) (t : OAuthTokens) (a : String) (e : Int)
    (ht : sys.auth.tokens = some t) (hr : resp.refresh_token = none)
    (ha : resp.access_token = some a) (ha2 : a ≠ "")
    (he : resp.expiry_date = some e) (he2 : e ≠ 0)
    (hw : env.writeOk = true) :
    (handleTokenRefresh sys env resp).result = .ok ()
    ∧ (handleTokenRefresh sys env resp).sys.auth.tokens =
        some { t with access_token := a, expiry_date := e }
    ∧ (handleTokenRefresh sys env resp).sys.store =
        .present { t with access_token := a, expiry_date := e }
    ∧ ({ t with access_token := a, expiry_date := e } : OAuthTokens).refresh_token =
        t.refresh_token := by
  unfold handleTokenRefresh saveTokens
  rw [ht]
  simp [jsOrStr, jsOrNum, strTruthy, hr, ha, ha2, he, he2, hw]

/-- C5 witness: concrete refresh of `staleTok` by `respFix` (no refresh token
in the response) keeps `refresh_token = "rt0"` while updating access token
and expiry. -/
theorem handleTokenRefresh_retains_refresh_token_witness :
    (handleTokenRefresh sysAuthed envOk respFix).result = .ok ()
    ∧ (handleTokenRefresh sysAuthed envOk respFix).sys.auth.tokens =
        some ⟨"at1", some "rt0", "scope", "Bearer", 1003600000⟩
    ∧ (handleTokenRefresh sysAuthed envOk respFix).sys.store =
        .present ⟨"at1", some "rt0", "scope", "Bearer", 1003600000⟩ := by
  have h := handleTokenRefresh_retains_refresh_token sysAuthed envOk respFix
    staleTok "at1" 1003600000 rfl rfl rfl (by decide) rfl (by decide) rfl
  exact ⟨h.1, h.2.1, h.2.2.1⟩

/-! ## Claim C10 — default event duration is one hour -/

/-- C10: when a `create_event` input specifies neither an end time nor a
duration, `createEvent` computes the end as the parsed start plus exactly one
hour (3600000 ms), via `calculateEndTime(startDate, "1 hour")`. -/
theorem createEventEnd_default_one_hour (parseEnd : String → Int) (startDate : Int) :
    createEventEnd parseEnd none none startDate = .ok (startDate + 3600000) := by
  have hpd : parseDuration "1 hour" = .ok ⟨1, 0, 60⟩ := by rfl
  simp [createEventEnd, strTruthy, calculateEndTimeStr, hpd, calculateEndTime,
    addHours, addMinutes]

/-! ## Claim C6 — persistence ordering and write-failure behaviour -/

/-- C6 counterexample: a failed persisted-store write after a successful
provider-side refresh does NOT leave the in-memory record updated; the
operation fails with the persistence error and the in-memory record is
unchanged (the claim's "memory still updated, surfaced only as a warning"
does not hold). -/
theorem saveTokens_write_failure_counterexample :
    (saveTokens sysAuthed envNoWrite newTok).result =
      .error (.persistError "Failed to write tokens")
    ∧ (saveTokens sysAuthed envNoWrite newTok).sys.auth.tokens = some staleTok
    ∧ (saveTokens sysAuthed envNoWrite newTok).sys.auth.tokens ≠ some newTok := by
  refine ⟨rfl, rfl, by decide⟩

/-- C6 amended: on a successful write the record reaches the persisted store
and only then becomes the in-memory record (store and memory agree on the new
record); on a failed write the operation fails with the persistence error and
neither the store nor the in-memory record changes. -/
theorem saveTokens_write_before_memory (sys : Sys) (env : Env) (t : OAuthTokens) :
    (env.writeOk = true →
      (saveTokens sys env t).result = .ok ()
      ∧ (saveTokens sys env t).sys.store = .present t
      ∧ (saveTokens sys env t).sys.auth.tokens = some t)
    ∧ (env.writeOk = false →
      (saveTokens sys env t).result = .error (.persistError "Failed to write tokens")
      ∧ (saveTokens sys env t).sys = sys) := by
  constructor
  · intro h; simp [saveTokens, h]
  · intro h; simp [saveTokens, h]

/-- C6 amended witness: a concrete successful write lands in the store and
memory; a concrete failed write errors and leaves the state untouched. -/
theorem saveTokens_write_before_memory_witness :
    ((saveTokens sysAuthed envOk newTok).result = .ok ()
      ∧ (saveTokens sysAuthed envOk newTok).sys.store = .present newTok
      ∧ (saveTokens sysAuthed envOk newTok).sys.auth.tokens = some newTok)
    ∧ ((saveTokens sysAuthed envNoWrite newTok).result =
        .error (.persistError "Failed to write tokens")
      ∧ (saveTokens sysAuthed envNoWrite newTok).sys = sysAuthed) := by
  exact ⟨(saveTokens_write_before_memory sysAuthed envOk newTok).1 rfl,
    (saveTokens_write_before_memory sysAuthed envNoWrite newTok).2 rfl⟩

/-! ## Claim C7 — code-exchange failures are not tagged `TokenExchangeFailed` -/

/-- C7 counterexample: when the provider returns a response with no access
token, `exchangeCode` fails with the untagged plain error
`"No access token received"` (no error-code kind at all); when the provider
rejects the code, the provider's own error propagates, also untagged.
Neither failure is distinguishable by kind, and no `TokenExchangeFailed`-like
code exists in the taxonomy. -/
theorem exchangeCode_untagged_counterexample :
    (exchangeCode sysAuthed envNoAT "somecode").result =
      .error (.genericError "No access token received")
    ∧ resultErrCode (exchangeCode sysAuthed envNoAT "somecode") = none
    ∧ (exchangeCode sysAuthed envFail "somecode").result =
      .error (.providerError "bad code")
    ∧ resultErrCode (exchangeCode sysAuthed envFail "somecode") = none := by
  exact ⟨rfl, rfl, rfl, rfl⟩

/-- C7 amended: for every state with a constructed client, a code exchange
whose response lacks a truthy access token fails with the untagged generic
error `"No access token received"`, and a provider rejection propagates the
provider's error untagged; in both cases the failure carries no error-code
kind. -/
theorem exchangeCode_untyped_errors (sys : Sys) (env : Env) (code : String)
    (client : OAuth2Client) (hc : sys.auth.oauth2Client = some client) :
    (∀ resp, env.tokenResult code = .ok resp → strTruthy resp.access_token = false →
      (exchangeCode sys env code).result = .error (.genericError "No access token received")
      ∧ resultErrCode (exchangeCode sys env code) = none)
    ∧ (∀ msg, env.tokenResult code = .error msg →
      (exchangeCode sys env code).result = .error (.providerError msg)
      ∧ resultErrCode (exchangeCode sys env code) = none) := by
  constructor
  · intro resp hr hf
    simp [exchangeCode, hc, hr, hf, resultErrCode, ThrownError.errCode]
  · intro msg hm
    simp [exchangeCode, hc, hm, resultErrCode, ThrownError.errCode]

/-- C7 amended witness: concrete instantiations of both failure shapes. -/
theorem exchangeCode_untyped_errors_witness :
    ((exchangeCode sysAuthed envNoAT "c1").result =
        .error (.genericError "No access token received")
      ∧ resultErrCode (exchangeCode sysAuthed envNoAT "c1") = none)
    ∧ ((exchangeCode sysAuthed envFail "c1").result = .error (.providerError "bad code")
      ∧ resultErrCode (exchangeCode sysAuthed envFail "c1") = none) := by
  exact ⟨(exchangeCode_untyped_errors sysAuthed envNoAT "c1" clientFix rfl).1
      ⟨none, some "rt", none, none, none⟩ rfl rfl,
    (exchangeCode_untyped_errors sysAuthed envFail "c1" clientFix rfl).2 "bad code" rfl⟩

/-! ## Claim C2 — refresh failure does not clear the stale record -/

/-- C2 counterexample: with the token inside the window and the provider
refusing the refresh, `getClient` propagates the provider error, the stale
record stays in memory and in the persisted store, and a subsequent
`getClient` re-attempts the refresh (one more provider call) instead of
failing fast with the `NotAuthenticated` error. -/
theorem getClient_refresh_failure_counterexample :
    (getClient sysAuthed envFail).result = .error (.providerError "invalid_grant")
    ∧ (getClient sysAuthed envFail).sys.auth.tokens = some staleTok
    ∧ (getClient sysAuthed envFail).sys.store = .present staleTok
    ∧ (getClient (getClient sysAuthed envFail).sys envFail).fx.refreshCalls = 1
    ∧ resultErrCode (getClient (getClient sysAuthed envFail).sys envFail) ≠
        some .AUTH_TOKEN_INVALID := by
  refine ⟨rfl, rfl, rfl, rfl, by decide⟩

/-- C2 amended: when the provider refuses the refresh, `getClient` fails with
the untagged provider error, leaves the whole state (in-memory record and
persisted store) unchanged, and has issued exactly one refresh request — so
later calls will retry the refresh rather than fail fast with
`NotAuthenticated`. -/
theorem getClient_refresh_failure_retains (sys : Sys) (env : Env) (c : OAuth2Client)
    (t : OAuthTokens) (msg : String)
    (hi : sys.auth.initialized = true) (hc : sys.auth.oauth2Client = some c)
    (ht : sys.auth.tokens = some t)
    (hn : needsRefresh sys.auth.tokens env.now = true)
    (hres : env.refreshResult = .error msg) :
    (getClient sys env).result = .error (.providerError msg)
    ∧ (getClient sys env).sys = sys
    ∧ (getClient sys env).fx.refreshCalls = 1
    ∧ resultErrCode (getClient sys env) = none := by
  have hauth : isAuthenticated sys.auth = true := by
    simp [isAuthenticated, ht, hc]
  unfold getClient
  simp only [hi, hauth, hc, hn, not_true, Bool.not_true, ite_false, if_false,
    if_true, ite_true, eq_self_iff_true]
  simp [hres, resultErrCode, ThrownError.errCode, Effects.add, Effects.zero]

/-- C2 amended witness: the concrete refused refresh. -/
theorem getClient_refresh_failure_retains_witness :
    (getClient sysAuthed envFail).result = .error (.providerError "invalid_grant")
    ∧ (getClient sysAuthed envFail).sys = sysAuthed
    ∧ (getClient sysAuthed envFail).fx.refreshCalls = 1
    ∧ resultErrCode (getClient sysAuthed envFail) = none := by
  exact getClient_refresh_failure_retains sysAuthed envFail clientFix staleTok
    "invalid_grant" rfl rfl rfl (by decide) rfl

/-! ## Claim C3 — `getStatus` and state mutation -/

/-- C3 counterexample: from a state with loaded credentials but no
constructed client (reachable when `loadTokens` threw during initialization),
`getStatus` mutates the manager state: it lazily constructs and caches the
OAuth2 client object through `generateAuthUrl`. -/
theorem getStatus_mutates_counterexample :
    (getStatus sysLazy envOk).sys ≠ sysLazy
    ∧ sysLazy.auth.oauth2Client = none
    ∧ (getStatus sysLazy envOk).sys.auth.oauth2Client ≠ none := by
  refine ⟨by decide, rfl, by decide⟩

/-- C3 amended: `getStatus` performs no persisted-store writes, no
identity-provider calls and no revocations (all effect counters are zero),
and never changes the token record, the credentials, the initialized flag or
the persisted store; the only field it may change is the lazily constructed
`oauth2Client` handle. -/
theorem getStatus_no_writes_no_provider_calls (sys : Sys) (env : Env) :
    (getStatus sys env).fx = .zero
    ∧ (getStatus sys env).sys.auth.tokens = sys.auth.tokens
    ∧ (getStatus sys env).sys.auth.credentials = sys.auth.credentials
    ∧ (getStatus sys env).sys.auth.initialized = sys.auth.initialized
    ∧ (getStatus sys env).sys.store = sys.store := by
  have hf := generateAuthUrl_frame sys
  unfold getStatus
  rcases hg : generateAuthUrl sys with ⟨res, s2, f2⟩
  rw [hg] at hf
  dsimp only at hf
  simp only [hg]
  split
  · exact ⟨rfl, rfl, rfl, rfl, rfl⟩
  · cases res <;> exact ⟨rfl, hf.1, hf.2.1, hf.2.2.1, hf.2.2.2.1⟩

/-! ## Claim C8 — initialization failure modes -/

/-- C8 counterexample: an unparseable credential file makes `initialize` fail
with `PARSE_ERROR`, not `AUTH_NOT_CONFIGURED`; and an unreadable persisted
token store makes `initialize` fail (with `PARSE_ERROR`) instead of
succeeding in the `Unauthenticated` state. -/
theorem initService_error_code_counterexample :
    (initService sysFresh envCorruptCred).result =
      .error (.calendarError "Failed to load credentials" .PARSE_ERROR)
    ∧ resultErrCode (initService sysFresh envCorruptCred) ≠ some .AUTH_NOT_CONFIGURED
    ∧ (initService sysCorruptStore envGoodCred).result =
      .error (.calendarError "Failed to load tokens" .PARSE_ERROR)
    ∧ resultErrCode (initService sysCorruptStore envGoodCred) = some .PARSE_ERROR := by
  refine ⟨rfl, by decide, rfl, rfl⟩

/-- C8 amended: on a not-yet-initialized service, `initialize` fails with
`AUTH_NOT_CONFIGURED` when the credential file is absent, or parses but holds
neither an `installed` nor a `web` configuration; it fails with `PARSE_ERROR`
when the credential file is unreadable/unparseable; with valid credentials,
an absent token store is not an error (the service initializes into the
unauthenticated state), while an unreadable token store makes `initialize`
fail with `PARSE_ERROR`. -/
theorem initService_configuration_cases (sys : Sys) (env : Env)
    (hin : sys.auth.initialized = false) :
    (env.credFile = .absent →
      (initService sys env).result = .error (.calendarError
        "OAuth credentials not found. Place credentials.json in config/" .AUTH_NOT_CONFIGURED))
    ∧ (env.credFile = .corrupt →
      (initService sys env).result =
        .error (.calendarError "Failed to load credentials" .PARSE_ERROR))
    ∧ (∀ creds, env.credFile = .present creds → creds.installed = none →
        creds.web = none → sys.store ≠ .corrupt →
      (initService sys env).result =
        .error (.calendarError "Invalid credentials format" .AUTH_NOT_CONFIGURED))
    ∧ (∀ creds cc, env.credFile = .present creds → creds.installed = some cc →
        sys.store = .absent →
      (initService sys env).result = .ok ()
      ∧ (initService sys env).sys.auth.tokens = none
      ∧ isAuthenticated (initService sys env).sys.auth = false
      ∧ (initService sys env).sys.auth.initialized = true)
    ∧ (∀ creds, env.credFile = .present creds → sys.store = .corrupt →
      (initService sys env).result =
        .error (.calendarError "Failed to load tokens" .PARSE_ERROR)) := by
  refine ⟨?_, ?_, ?_, ?_, ?_⟩
  · intro h
    simp [initService, loadCredentials, hin, h]
  · intro h
    simp [initService, loadCredentials, hin, h]
  · intro creds h h1 h2 h3
    rcases hs : sys.store with _ | _ | t
    · simp [initService, loadCredentials, loadTokens, createOAuth2Client, jsOrOpt,
        hin, h, h1, h2, hs]
    · exact absurd hs h3
    · simp [initService, loadCredentials, loadTokens, createOAuth2Client, jsOrOpt,
        hin, h, h1, h2, hs]
  · intro creds cc h h1 h2
    simp [initService, loadCredentials, loadTokens, createOAuth2Client, jsOrOpt,
      isAuthenticated, hin, h, h1, h2]
  · intro creds h h1
    simp [initService, loadCredentials, loadTokens, hin, h, h1]

/-- C8 amended witness: concrete absent-credentials failure and concrete
successful initialization with no persisted token record. -/
theorem initService_configuration_cases_witness :
    (initService sysFresh envNoCred).result = .error (.calendarError
      "OAuth credentials not found. Place credentials.json in config/" .AUTH_NOT_CONFIGURED)
    ∧ ((initService sysFresh envGoodCred).result = .ok ()
      ∧ (initService sysFresh envGoodCred).sys.auth.tokens = none
      ∧ isAuthenticated (initService sysFresh envGoodCred).sys.auth = false
      ∧ (initService sysFresh envGoodCred).sys.auth.initialized = true) := by
  exact ⟨(initService_configuration_cases sysFresh envNoCred rfl).1 rfl,
    (initService_configuration_cases sysFresh envGoodCred rfl).2.2.2.1
      credsFix ccFix rfl rfl rfl⟩

/-! ## Claim C9 — `acquireClient` after `clearTokens` -/

/-- C9 counterexample: from a never-configured state (no credential file),
`clearTokens` followed by `acquireClient` fails with `AUTH_NOT_CONFIGURED`
— not with the `NotAuthenticated` error (`AUTH_TOKEN_INVALID`) carrying an
authorization URL — so the claim does not hold for every state reached after
`clearTokens()`. -/
theorem clearTokens_unconfigured_counterexample :
    (getClient (clearTokens sysFresh envNoCred).sys envNoCred).result =
      .error (.calendarError
        "OAuth credentials not found. Place credentials.json in config/" .AUTH_NOT_CONFIGURED)
    ∧ resultErrCode (getClient (clearTokens sysFresh envNoCred).sys envNoCred) ≠
        some .AUTH_TOKEN_INVALID := by
  refine ⟨rfl, by decide⟩

/-- C9 amended: on an initialized service (client constructed), after
`clearTokens` a subsequent `acquireClient` fails with the `NotAuthenticated`
error (`AUTH_TOKEN_INVALID`) whose message embeds the freshly generated,
non-empty authorization URL. -/
theorem clearTokens_then_getClient_not_authenticated (sys : Sys) (env : Env)
    (c : OAuth2Client)
    (hi : sys.auth.initialized = true) (hc : sys.auth.oauth2Client = some c) :
    (getClient (clearTokens sys env).sys env).result =
      .error (.calendarError ("Not authenticated. Visit: " ++ libGenerateAuthUrl c)
        .AUTH_TOKEN_INVALID)
    ∧ libGenerateAuthUrl c ≠ "" := by
  refine ⟨?_, libGenerateAuthUrl_ne_empty c⟩
  unfold getClient clearTokens generateAuthUrl
  simp [isAuthenticated, hi, hc]

/-- C9 amended witness: the concrete authenticated service cleared and then
asked for a client. -/
theorem clearTokens_then_getClient_not_authenticated_witness :
    (getClient (clearTokens sysAuthed envOk).sys envOk).result =
      .error (.calendarError ("Not authenticated. Visit: " ++ libGenerateAuthUrl clientFix)
        .AUTH_TOKEN_INVALID)
    ∧ libGenerateAuthUrl clientFix ≠ "" := by
  exact clearTokens_then_getClient_not_authenticated sysAuthed envOk clientFix rfl rfl

/-! ## Claim C1 — no single-flight refresh coordination -/

/-- Running a schedule over concatenated segments runs the segments in
order. -/
lemma runSchedule_append (env : Env) (a b : List Nat) (cs : ConcState) :
    runSchedule env (a ++ b) cs = runSchedule env b (runSchedule env a cs) := by
  induction a generalizing cs with
  | nil => rfl
  | cons x xs ih => simp [runSchedule, ih]

/-- One scheduling step of a `ready` caller on an initialized, authenticated
state whose token needs a refresh: the caller issues its own provider refresh
request (one more refresh call) and suspends; the shared state is
unchanged. -/
lemma stepCaller_ready (env : Env) (sys : Sys) (fx : Effects)
    (ph : Nat → CallerPhase) (i : Nat) (c : OAuth2Client) (t : OAuthTokens)
    (hp : ph i = .ready)
    (hi : sys.auth.initialized = true) (hc : sys.auth.oauth2Client = some c)
    (ht : sys.auth.tokens = some t)
    (hn : needsRefresh sys.auth.tokens env.now = true) :
    stepCaller env ⟨sys, fx, ph⟩ i =
      ⟨sys, fx.add ⟨1, 0, 0⟩, Function.update ph i .waiting⟩ := by
  have hauth : isAuthenticated sys.auth = true := by
    simp [isAuthenticated, ht, hc]
  unfold stepCaller
  simp only [hp]
  simp [hi, hc, hauth, hn]

/-- After scheduling the first phase of callers `0..n-1` from the initial
concurrent state, the shared state is unchanged, `n` refresh requests have
been issued, and those callers are all suspended on their own refresh. -/
lemma runSchedule_range_invariant (env : Env) (sys : Sys) (c : OAuth2Client)
    (t : OAuthTokens)
    (hi : sys.auth.initialized = true) (hc : sys.auth.oauth2Client = some c)
    (ht : sys.auth.tokens = some t)
    (hn : needsRefresh sys.auth.tokens env.now = true) :
    ∀ n, runSchedule env (List.range n) (initConc sys) =
      ⟨sys, ⟨n, 0, 0⟩, fun i => if i < n then CallerPhase.waiting else .ready⟩ := by
  intro n
  induction n with
  | zero =>
    show initConc sys = _
    unfold initConc
    congr 1
  | succ k ihk =>
    rw [List.range_succ, runSchedule_append, ihk]
    show stepCaller env _ k = _
    rw [stepCaller_ready env sys ⟨k, 0, 0⟩ _ k c t (by simp) hi hc ht hn]
    congr 1
    funext i
    rcases eq_or_ne i k with rfl | hne
    · simp [Function.update]
    · have hiff : i < k + 1 ↔ i < k := by omega
      simp [Function.update, hne, hiff]

/-- C1 counterexample: two concurrent `acquireClient` callers, both inside
the refresh window, scheduled so that each runs its synchronous prefix before
either refresh resolves (a legal cooperative interleaving): two refresh
requests are issued to the identity provider, refuting "at most one refresh
request is issued". -/
theorem concurrent_getClient_two_refreshes_counterexample :
    (runSchedule envOk [0, 1] (initConc sysAuthed)).fx.refreshCalls = 2
    ∧ ¬ (runSchedule envOk [0, 1] (initConc sysAuthed)).fx.refreshCalls ≤ 1 := by
  refine ⟨rfl, by decide⟩

/-- C1 amended: the manager performs no single-flight coordination — for
every `n`, `n` concurrent `acquireClient` callers that all observe the token
inside the refresh window (each running its check phase before any refresh
resolves) issue `n` independent refresh requests to the identity provider,
one per caller. -/
theorem concurrent_getClient_refresh_per_caller (sys : Sys) (env : Env)
    (c : OAuth2Client) (t : OAuthTokens)
    (hi : sys.auth.initialized = true) (hc : sys.auth.oauth2Client = some c)
    (ht : sys.auth.tokens = some t)
    (hn : needsRefresh sys.auth.tokens env.now = true) (n : Nat) :
    (runSchedule env (List.range n) (initConc sys)).fx.refreshCalls = n := by
  rw [runSchedule_range_invariant env sys c t hi hc ht hn n]

/-- C1 amended witness: three concrete concurrent callers issue three refresh
requests. -/
theorem concurrent_getClient_refresh_per_caller_witness :
    (runSchedule envOk (List.range 3) (initConc sysAuthed)).fx.refreshCalls = 3 := by
  exact concurrent_getClient_refresh_per_caller sysAuthed envOk clientFix staleTok
    rfl rfl rfl (by decide) 3

end MaroCal
